import Mathlib

/-!
A shallow embedding of the calendar web application's backend logic
(src/lib/google-calendar.ts and the Prisma data model) in Lean 4,
used to verify the specification's claims about sync, error handling,
the persistent data model and the set of upstream API operations.

External effects (the Google Calendar API, the OAuth token endpoint and
the system clock) are passed in as explicit oracle arguments; the Prisma
database is explicit state (`DB`), threaded through every operation.
-/

/-- JavaScript string-or-default: models `s || d` on optional strings,
where both `undefined`/`null` and the empty string are falsy. -/
def jsOrStr (s : Option String) (d : String) : String :=
  match s with
  | none => d
  | some v => if v = "" then d else v

/-- Models JavaScript `String.prototype.includes`. -/
def strIncludes (s sub : String) : Bool :=
  if sub = "" then true else (s.splitOn sub).length ≥ 2

/-- The `source` sub-object of a Google Calendar event. -/
structure GSource where
  title : Option String := none
  url : Option String := none
deriving DecidableEq, Repr

/-- The `start`/`end` sub-object of a Google Calendar event. -/
structure GEventTime where
  dateTime : Option String := none
  date : Option String := none
deriving DecidableEq, Repr

/-- A raw event as returned by the Google Calendar API
(the fields this application reads; `id` is always asserted non-null
with `event.id!` at every use site). -/
structure GEvent where
  id : String
  summary : Option String := none
  start : Option GEventTime := none
  «end» : Option GEventTime := none
  description : Option String := none
  location : Option String := none
  etag : Option String := none
  status : Option String := none
  updated : Option String := none
  eventType : Option String := none
  visibility : Option String := none
  source : Option GSource := none
deriving DecidableEq, Repr

/-- The application's `CalendarEvent` shape (src/lib/types.ts). -/
structure CalendarEvent where
  id : String
  summary : String
  start : String
  «end» : String
  description : Option String := none
  location : Option String := none
  etag : Option String := none
  status : Option String := none
  updated : Option String := none
  eventType : Option String := none
  visibility : Option String := none
  source : Option GSource := none
deriving DecidableEq, Repr

/-- The field mapping applied to every upstream event in `fetchAllEvents`,
`syncCalendarEvents` and `updateEvent` (google-calendar.ts lines 89-102,
141-154, 365-378). -/
def mapGEvent (event : GEvent) : CalendarEvent :=
  { id := event.id
    summary := jsOrStr event.summary "Untitled Event"
    start := jsOrStr (event.start.bind GEventTime.dateTime)
      (jsOrStr (event.start.bind GEventTime.date) "")
    «end» := jsOrStr (event.«end».bind GEventTime.dateTime)
      (jsOrStr (event.«end».bind GEventTime.date) "")
    description := event.description
    location := event.location
    etag := event.etag
    status := event.status
    updated := event.updated
    eventType := event.eventType
    visibility := event.visibility
    source := event.source }

/-- The field mapping used by `createEvent` (lines 293-303): identical to
`mapGEvent` except that `eventType`, `visibility` and `source` are not
copied (the returned object omits those keys). -/
def mapGEventBasic (event : GEvent) : CalendarEvent :=
  { id := event.id
    summary := jsOrStr event.summary "Untitled Event"
    start := jsOrStr (event.start.bind GEventTime.dateTime)
      (jsOrStr (event.start.bind GEventTime.date) "")
    «end» := jsOrStr (event.«end».bind GEventTime.dateTime)
      (jsOrStr (event.«end».bind GEventTime.date) "")
    description := event.description
    location := event.location
    etag := event.etag
    status := event.status
    updated := event.updated }

/-- One page of an `events.list` response. -/
structure EventsPage where
  items : List GEvent := []
  nextPageToken : Option String := none
  nextSyncToken : Option String := none
deriving DecidableEq, Repr

/-- A JavaScript error value: either an upstream API error (an object
carrying a numeric `code` property) or a locally constructed
`new Error(message)` (which has no `code` property). -/
inductive JsError where
  | upstream (code : Nat) (message : String)
  | appError (message : String)
deriving DecidableEq, Repr

/-- The `code` property of an error (`none` for a plain `Error`). -/
def errCode : JsError → Option Nat
  | .upstream c _ => some c
  | .appError _ => none

/-- The credentials object returned by the OAuth token endpoint. -/
structure Credentials where
  access_token : Option String := none
deriving DecidableEq, Repr

/-- A row of the `User` table (the columns the backend logic reads and
writes; timestamps are epoch milliseconds). -/
structure UserRec where
  id : String
  email : String
  accessToken : String
  refreshToken : String
  tokenExpiry : Int
  syncToken : Option String
deriving DecidableEq, Repr

/-- A row of the `Webhook` table. -/
structure WebhookRec where
  id : String
  userId : String
  channelId : String
  resourceId : String
  expiration : Int
deriving DecidableEq, Repr

/-- The persistent store: the two Prisma-backed tables. -/
structure DB where
  users : List UserRec
  webhooks : List WebhookRec
deriving DecidableEq, Repr

/-- `prisma.user.findUnique({ where: { id } })`. -/
def findUser (db : DB) (userId : String) : Option UserRec :=
  db.users.find? (fun u => u.id == userId)

/-- `prisma.user.update({ where: { id }, data })`: rewrites the row whose
`id` matches. -/
def updateUserRow (db : DB) (userId : String) (f : UserRec → UserRec) : DB :=
  { db with users := db.users.map (fun u => if u.id == userId then f u else u) }

/-- The stored `syncToken` of a user (`none` when the user is absent). -/
def storedSyncToken (db : DB) (userId : String) : Option (Option String) :=
  (findUser db userId).map UserRec.syncToken

/-- Embedding of `setupOAuthClient` (google-calendar.ts lines 16-52).
`t0` is the clock reading `new Date()` at line 26; `t1` is the reading
`Date.now()` at line 36; `refreshO` is the OAuth token endpoint
(`refreshAccessToken`). Returns the post-state and success or the
thrown error. -/
def setupOAuthClient (db : DB) (userId : String) (t0 t1 : Int)
    (refreshO : String → Except JsError Credentials) :
    DB × Except JsError Unit :=
  match findUser db userId with
  | none => (db, .error (.appError "User not found"))
  | some user =>
    if user.tokenExpiry ≤ t0 then
      match refreshO user.refreshToken with
      | .error e => (db, .error e)
      | .ok newTokens =>
        (updateUserRow db userId (fun u =>
          { u with accessToken := newTokens.access_token.getD ""
                   tokenExpiry := t1 + 3600000 }), .ok ())
    else (db, .ok ())

/-- Embedding of `fetchAllEvents` (lines 71-107). `listResult` is the
outcome of the single `events.list` call; on error the raw error is
re-thrown (lines 103-106). -/
def fetchAllEvents (db : DB) (userId : String) (t0 t1 : Int)
    (refreshO : String → Except JsError Credentials)
    (listResult : Except JsError EventsPage) :
    DB × Except JsError (List CalendarEvent) :=
  match setupOAuthClient db userId t0 t1 refreshO with
  | (db1, .error e) => (db1, .error e)
  | (db1, .ok _) =>
    match listResult with
    | .error e => (db1, .error e)
    | .ok resp => (db1, .ok (resp.items.map mapGEvent))

/-- The `do`/`while (pageToken)` pagination loop of `syncCalendarEvents`
(lines 125-167), consuming the successive `events.list` responses.
Returns `none` when the oracle supplies no further page for a pending
request (cannot happen for a well-formed response sequence). -/
def syncLoop (db : DB) (userId : String) (acc : List CalendarEvent)
    (hasChanges : Bool) : List EventsPage →
    Option (DB × List CalendarEvent × Bool)
  | [] => none
  | page :: rest =>
    let events := page.items
    let hasChanges2 := if events.length > 0 then true else hasChanges
    let acc2 := if events.length > 0 then acc ++ events.map mapGEvent else acc
    match page.nextPageToken with
    | some _ => syncLoop db userId acc2 hasChanges2 rest
    | none =>
      match page.nextSyncToken with
      | some t =>
        some (updateUserRow db userId (fun u => { u with syncToken := some t }),
          acc2, hasChanges2)
      | none => some (db, acc2, hasChanges2)

/-- Embedding of `syncCalendarEvents` (lines 110-188). `fetch` maps the
`syncToken` sent on the first request to the full sequence of pages the
upstream would deliver for that request chain (or the error it fails
with, in which case no database write has happened inside the loop).
A 410 error clears the stored `syncToken` and re-enters the function
(lines 172-183); `fuel` bounds that recursion, `none` meaning the model
ran out of fuel or the oracle was ill-formed. -/
def syncCalendarEvents : Nat → DB → String → Int → Int →
    (String → Except JsError Credentials) →
    (Option String → Except JsError (List EventsPage)) →
    Option (DB × Except JsError (List CalendarEvent × Bool))
  | 0, _, _, _, _, _, _ => none
  | fuel + 1, db, userId, t0, t1, refreshO, fetch =>
    match setupOAuthClient db userId t0 t1 refreshO with
    | (db1, .error e) => some (db1, .error e)
    | (db1, .ok _) =>
      match findUser db1 userId with
      | none => some (db1, .error (.appError "User not found"))
      | some user =>
        match fetch user.syncToken with
        | .error e =>
          if errCode e = some 410 then
            syncCalendarEvents fuel
              (updateUserRow db1 userId (fun u => { u with syncToken := none }))
              userId t0 t1 refreshO fetch
          else some (db1, .error e)
        | .ok pages =>
          match syncLoop db1 userId [] false pages with
          | none => none
          | some (db2, es, hc) => some (db2, .ok (es, hc))

/-- Embedding of `stopWebhook` (lines 248-266). `stopO` is the
`channels.stop` upstream call; on success the webhook row with the
given `channelId` is deleted, on failure the raw error is re-thrown. -/
def stopWebhook (db : DB) (channelId : String) (resourceId : String)
    (stopO : String → String → Except JsError Unit) :
    DB × Except JsError Unit :=
  match stopO channelId resourceId with
  | .error e => (db, .error e)
  | .ok _ =>
    ({ db with webhooks := db.webhooks.filter (fun w => w.channelId != channelId) },
     .ok ())

/-- The cleanup loop at the start of `setupWebhook` (lines 195-211):
for each previously found webhook, try `stopWebhook`; when that throws,
force-delete the row by `id` from the database, ignoring errors. -/
def cleanupWebhooks (db : DB)
    (stopO : String → String → Except JsError Unit) :
    List WebhookRec → DB
  | [] => db
  | webhook :: rest =>
    match stopWebhook db webhook.channelId webhook.resourceId stopO with
    | (db1, .ok _) => cleanupWebhooks db1 stopO rest
    | (_, .error _) =>
      cleanupWebhooks
        { db with webhooks := db.webhooks.filter (fun w => w.id != webhook.id) }
        stopO rest

/-- Embedding of `setupWebhook` (lines 191-245). `nowMs` is the
`Date.now()` reading used for the fresh channel id and the expiration;
`newRowId` is the cuid Prisma generates for the new row; `watchResult`
is the `events.watch` outcome (the `resourceId` on success). -/
def setupWebhook (db : DB) (userId : String) (t0 t1 : Int)
    (refreshO : String → Except JsError Credentials)
    (stopO : String → String → Except JsError Unit)
    (nowMs : Int) (newRowId : String)
    (watchResult : Except JsError String) :
    DB × Except JsError Unit :=
  let existingWebhooks := db.webhooks.filter (fun w => w.userId == userId)
  let db1 := cleanupWebhooks db stopO existingWebhooks
  match setupOAuthClient db1 userId t0 t1 refreshO with
  | (db2, .error e) => (db2, .error e)
  | (db2, .ok _) =>
    let channelId := userId ++ "-" ++ toString nowMs
    let expiration := nowMs + 7 * 24 * 60 * 60 * 1000
    match watchResult with
    | .error e => (db2, .error e)
    | .ok resourceId =>
      ({ db2 with
          webhooks := db2.webhooks ++
            [{ id := newRowId, userId := userId, channelId := channelId,
               resourceId := resourceId, expiration := expiration }] },
       .ok ())

/-- The `Partial<CalendarEvent>` input of `createEvent`/`updateEvent`
(only these fields are read to build the request body). -/
structure EventInput where
  summary : Option String := none
  description : Option String := none
  location : Option String := none
  start : Option String := none
  «end» : Option String := none
deriving DecidableEq, Repr

/-- Embedding of `createEvent` (lines 269-308). `insertResult` is the
`events.insert` outcome; on error the raw error is re-thrown
(lines 304-307). -/
def createEvent (db : DB) (userId : String) (eventData : EventInput)
    (t0 t1 : Int) (refreshO : String → Except JsError Credentials)
    (insertResult : Except JsError GEvent) :
    DB × Except JsError CalendarEvent :=
  match setupOAuthClient db userId t0 t1 refreshO with
  | (db1, .error e) => (db1, .error e)
  | (db1, .ok _) =>
    match insertResult with
    | .error e => (db1, .error e)
    | .ok event => (db1, .ok (mapGEventBasic event))

/-- The `source?.title?.toLowerCase()?.includes('birthday')` check used
by `updateEvent` and `deleteEvent` (lines 332, 423); missing links of
the optional chain are falsy. -/
def sourceTitleHasBirthday (event : GEvent) : Bool :=
  match event.source with
  | none => false
  | some s =>
    match s.title with
    | none => false
    | some t => strIncludes t.toLower "birthday"

/-- The `source?.url?.includes('plus.google.com')` check (lines 337, 428). -/
def sourceUrlHasPlus (event : GEvent) : Bool :=
  match event.source with
  | none => false
  | some s =>
    match s.url with
    | none => false
    | some u => strIncludes u "plus.google.com"

/-- The `catch` block of `updateEvent` (lines 379-399): rewrites upstream
errors with codes 400 (birthday or invalid-type messages), 403 and 404
into user-friendly `Error`s, and re-throws every other error unchanged
(a plain `Error` has no `code` property, so it always passes through). -/
def rewriteUpdateError (err : JsError) : JsError :=
  match err with
  | .appError _ => err
  | .upstream code msg =>
    if code == 400 &&
        (strIncludes msg "birthday" || strIncludes msg "not valid for this event type") then
      .appError "Cannot update birthday or system events. These events are managed by Google."
    else if code == 403 then
      .appError "You do not have permission to update this event."
    else if code == 404 then
      .appError "Event not found or has been deleted."
    else err

/-- Embedding of `updateEvent` (lines 312-400). `getResult` is the
`events.get` outcome, `updResult` the `events.update` outcome; every
error thrown inside the `try` block (including the locally constructed
birthday/system checks) passes through `rewriteUpdateError`,
while errors from `setupOAuthClient` are thrown before the `try`. -/
def updateEvent (db : DB) (userId : String) (eventId : String)
    (eventData : EventInput) (t0 t1 : Int)
    (refreshO : String → Except JsError Credentials)
    (getResult : Except JsError GEvent) (updResult : Except JsError GEvent) :
    DB × Except JsError CalendarEvent :=
  match setupOAuthClient db userId t0 t1 refreshO with
  | (db1, .error e) => (db1, .error e)
  | (db1, .ok _) =>
    let body : Except JsError CalendarEvent :=
      match getResult with
      | .error e => .error e
      | .ok existingEvent =>
        if existingEvent.eventType == some "birthday" then
          .error (.appError "Cannot update birthday events. These events are managed by Google and cannot be modified.")
        else if sourceTitleHasBirthday existingEvent then
          .error (.appError "Cannot update birthday events. These events are managed by Google and cannot be modified.")
        else if sourceUrlHasPlus existingEvent then
          .error (.appError "Cannot update system events. These events are managed by Google and cannot be modified.")
        else if existingEvent.status == some "cancelled" then
          .error (.appError "Cannot update cancelled events.")
        else
          match updResult with
          | .error e => .error e
          | .ok event => .ok (mapGEvent event)
    match body with
    | .error e => (db1, .error (rewriteUpdateError e))
    | .ok v => (db1, .ok v)

/-- The `catch` block of `deleteEvent` (lines 443-466). -/
def rewriteDeleteError (err : JsError) : JsError :=
  match err with
  | .appError _ => err
  | .upstream code msg =>
    if code == 400 &&
        (strIncludes msg "birthday" || strIncludes msg "not valid for this event type") then
      .appError "Cannot delete birthday or system events. These events are managed by Google."
    else if code == 400 && strIncludes msg "deleted" then
      .appError "Event has already been deleted."
    else if code == 403 then
      .appError "You do not have permission to delete this event."
    else if code == 404 then
      .appError "Event not found or has already been deleted."
    else err

/-- Embedding of `deleteEvent` (lines 403-467). -/
def deleteEvent (db : DB) (userId : String) (eventId : String)
    (t0 t1 : Int) (refreshO : String → Except JsError Credentials)
    (getResult : Except JsError GEvent) (delResult : Except JsError Unit) :
    DB × Except JsError Unit :=
  match setupOAuthClient db userId t0 t1 refreshO with
  | (db1, .error e) => (db1, .error e)
  | (db1, .ok _) =>
    let body : Except JsError Unit :=
      match getResult with
      | .error e => .error e
      | .ok event =>
        if event.eventType == some "birthday" then
          .error (.appError "Cannot delete birthday events. These events are managed by Google and cannot be removed.")
        else if sourceTitleHasBirthday event then
          .error (.appError "Cannot delete birthday events. These events are managed by Google and cannot be removed.")
        else if sourceUrlHasPlus event then
          .error (.appError "Cannot delete system events. These events are managed by Google and cannot be removed.")
        else if event.status == some "cancelled" then
          .error (.appError "Event is already cancelled")
        else
          delResult
    match body with
    | .error e => (db1, .error (rewriteDeleteError e))
    | .ok v => (db1, .ok v)

/-- The upstream Google operations this repository can invoke. -/
inductive UpstreamOp where
  | eventsList
  | eventsInsert
  | eventsUpdate
  | eventsDelete
  | eventsWatch
  | eventsGet
  | channelsStop
  | oauthToken
  | oauthUserinfo
deriving DecidableEq, Repr

/-- Every direct upstream SDK invocation in the repository's source,
as pairs of (source location, operation):
`refreshAccessToken` line 66 (`refreshAccessToken()`, OAuth token endpoint),
`fetchAllEvents` line 77 (`events.list`),
`syncCalendarEvents` line 128 (`events.list`),
`setupWebhook` line 220 (`events.watch`),
`stopWebhook` line 250 (`channels.stop`),
`createEvent` line 275 (`events.insert`),
`updateEvent` lines 318 and 346 (`events.get`, `events.update`),
`deleteEvent` lines 409 and 437 (`events.get`, `events.delete`),
`app/api/auth/google/callback/route.ts` lines 22 and 27
(`getToken`, `oauth2.userinfo.get`),
`app/api/auth/refresh/route.ts` line 43 (`refreshAccessToken()`),
`app/api/calendar/events/route.ts` lines 36 and 70
(`refreshAccessToken()` inside `refreshTokenIfNeeded`, `events.list`). -/
def upstreamCallSites : List (String × UpstreamOp) :=
  [("lib/google-calendar.ts:refreshAccessToken", .oauthToken),
   ("lib/google-calendar.ts:fetchAllEvents", .eventsList),
   ("lib/google-calendar.ts:syncCalendarEvents", .eventsList),
   ("lib/google-calendar.ts:setupWebhook", .eventsWatch),
   ("lib/google-calendar.ts:stopWebhook", .channelsStop),
   ("lib/google-calendar.ts:createEvent", .eventsInsert),
   ("lib/google-calendar.ts:updateEvent", .eventsGet),
   ("lib/google-calendar.ts:updateEvent", .eventsUpdate),
   ("lib/google-calendar.ts:deleteEvent", .eventsGet),
   ("lib/google-calendar.ts:deleteEvent", .eventsDelete),
   ("app/api/auth/google/callback/route.ts", .oauthToken),
   ("app/api/auth/google/callback/route.ts", .oauthUserinfo),
   ("app/api/auth/refresh/route.ts", .oauthToken),
   ("app/api/calendar/events/route.ts", .oauthToken),
   ("app/api/calendar/events/route.ts", .eventsList)]

/-- Whether an operation belongs to the Google Calendar API v3 surface
(as opposed to the OAuth2 endpoints). -/
def isCalendarOp : UpstreamOp → Bool
  | .oauthToken => false
  | .oauthUserinfo => false
  | _ => true

/-- The Calendar API v3 operations the program may invoke. -/
def invokedCalendarOps : List UpstreamOp :=
  ((upstreamCallSites.map Prod.snd).filter isCalendarOp).dedup

/-- The Calendar operations the spec lists
("events.list/insert/update/delete/watch"). -/
def specClaimedCalendarOps : List UpstreamOp :=
  [.eventsList, .eventsInsert, .eventsUpdate, .eventsDelete, .eventsWatch]

/-- Columns of the `User` table (prisma/schema.prisma lines 19-30 and
migration 20250714151600_init). -/
def userTableColumns : List String :=
  ["id", "email", "accessToken", "refreshToken", "tokenExpiry", "syncToken",
   "createdAt", "updatedAt"]

/-- Columns of the `Webhook` table (schema.prisma lines 32-41). -/
def webhookTableColumns : List String :=
  ["id", "userId", "channelId", "resourceId", "expiration", "createdAt"]

/-- The `User` fields the spec's data-model section lists. -/
def specUserFields : List String :=
  ["id", "email", "accessToken", "refreshToken", "tokenExpiry", "syncToken"]

/-- The `Webhook` fields the spec's data-model section lists. -/
def specWebhookFields : List String :=
  ["id", "userId", "channelId", "resourceId", "expiration"]

/-- A change to a `User` row that touches at most `accessToken` and
`tokenExpiry`. -/
def tokenOnlyChange (a b : UserRec) : Prop :=
  b.id = a.id ∧ b.email = a.email ∧ b.refreshToken = a.refreshToken ∧
    b.syncToken = a.syncToken

/-- Frame relation between two database states: the `Webhook` table is
unchanged, rows of users other than `userId` are unchanged, and the row
of `userId` changed at most in `accessToken`/`tokenExpiry`. -/
def userFrame (userId : String) (old new : DB) : Prop :=
  new.webhooks = old.webhooks ∧
  List.Forall₂
    (fun a b => (a.id = userId → tokenOnlyChange a b) ∧ (a.id ≠ userId → b = a))
    old.users new.users

/-- A well-formed `events.list` response sequence: nonempty, every page
before the last carries a `nextPageToken`, and the last page does not. -/
def wellFormedPages : List EventsPage → Bool
  | [] => false
  | [p] => p.nextPageToken.isNone
  | p :: rest => p.nextPageToken.isSome && wellFormedPages rest

/-- The database state after a successful run of the pagination loop:
the stored `syncToken` is rewritten exactly when the final page carries
a `nextSyncToken` (google-calendar.ts lines 160-166). -/
def finalSyncDb (db : DB) (userId : String) : List EventsPage → DB
  | [] => db
  | [p] =>
    match p.nextSyncToken with
    | some t => updateUserRow db userId (fun u => { u with syncToken := some t })
    | none => db
  | _ :: rest => finalSyncDb db userId rest

/-- Example fixture: a user whose access token is still valid at the
sample clock reading `t0 = 1000`. -/
def exUser : UserRec :=
  { id := "u1", email := "a@example.com", accessToken := "tokA",
    refreshToken := "tokR", tokenExpiry := 5000, syncToken := some "oldSync" }

/-- Example fixture: a store holding only `exUser`. -/
def exDb : DB := { users := [exUser], webhooks := [] }

/-- Example fixture: a token-refresh oracle that is never consulted. -/
def exNoRefresh : String → Except JsError Credentials :=
  fun _ => .error (.appError "refresh not expected")

/-- Example fixture: an upstream event with dateTime bounds. -/
def exGEvent1 : GEvent :=
  { id := "e1", summary := some "Meeting",
    start := some { dateTime := some "2025-01-01T10:00:00Z" },
    «end» := some { dateTime := some "2025-01-01T11:00:00Z" } }

/-- Example fixture: an all-day upstream event without a summary. -/
def exGEvent2 : GEvent :=
  { id := "e2", summary := none,
    start := some { date := some "2025-01-02" },
    «end» := some { date := some "2025-01-03" } }

/-- Example fixture: first response page, pointing at a second page. -/
def exPage1 : EventsPage :=
  { items := [exGEvent1], nextPageToken := some "page2" }

/-- Example fixture: final response page carrying a `nextSyncToken`. -/
def exPage2 : EventsPage :=
  { items := [exGEvent2], nextSyncToken := some "newSync" }

/-- Example fixture: a two-page upstream response sequence. -/
def exFetchTwoPages : Option String → Except JsError (List EventsPage) :=
  fun _ => .ok [exPage1, exPage2]

/-- Example fixture: upstream rejecting any sync token with a 410 and
serving a one-page full sync on a token-less request. -/
def exFetch410 : Option String → Except JsError (List EventsPage) :=
  fun st =>
    match st with
    | some _ => .error (.upstream 410 "Sync token is no longer valid")
    | none => .ok [exPage2]

/-- Example fixture: like `exFetch410`, but the full-sync response is an
empty final page without a `nextSyncToken`. -/
def exFetch410Bare : Option String → Except JsError (List EventsPage) :=
  fun st =>
    match st with
    | some _ => .error (.upstream 410 "Sync token is no longer valid")
    | none => .ok [{ items := [] }]

/-- Example fixture: upstream failing with a 403. -/
def exFetch403 : Option String → Except JsError (List EventsPage) :=
  fun _ => .error (.upstream 403 "Forbidden")

/-- Example fixture: a webhook row already present for `exUser`. -/
def exWebhookOld : WebhookRec :=
  { id := "w0", userId := "u1", channelId := "u1-111", resourceId := "r0",
    expiration := 111 }

/-- Example fixture: a store holding `exUser` and one old webhook. -/
def exDbW : DB := { users := [exUser], webhooks := [exWebhookOld] }

/-- Example fixture: a `channels.stop` oracle that always fails. -/
def exStopFail : String → String → Except JsError Unit :=
  fun _ _ => .error (.upstream 500 "channel stop failed")

/-- Example fixture: a user whose access token has expired. -/
def exUserExpired : UserRec :=
  { id := "u2", email := "b@example.com", accessToken := "old",
    refreshToken := "tokR2", tokenExpiry := 500, syncToken := none }

/-- Example fixture: a store holding only `exUserExpired`. -/
def exDbExpired : DB := { users := [exUserExpired], webhooks := [] }

/-- Example fixture: a token-refresh oracle returning a fresh token. -/
def exRefreshOk : String → Except JsError Credentials :=
  fun _ => .ok { access_token := some "fresh" }


/-- Example fixture: the webhook row `setupWebhook` creates in the
witness run. -/
def exWebhookNew : WebhookRec :=
  { id := "w1", userId := "u1", channelId := "u1-2000",
    resourceId := "res1", expiration := 604802000 }

/-- Example fixture: the store after the witness `setupWebhook` run. -/
def exDbWAfter : DB := { users := [exUser], webhooks := [exWebhookNew] }

/-- Example fixture: `exUserExpired` after the witness token refresh. -/
def exUserRefreshed : UserRec :=
  { exUserExpired with accessToken := "fresh", tokenExpiry := 3601000 }

/-- Example fixture: the store after the witness token refresh. -/
def exDbRefreshed : DB := { users := [exUserRefreshed], webhooks := [] }

lemma userFrame_refl (userId : String) (db : DB) : userFrame userId db db := by
  refine ⟨rfl, ?_⟩
  rw [List.forall₂_same]
  intro x _
  exact ⟨fun _ => ⟨rfl, rfl, rfl, rfl⟩, fun _ => rfl⟩

lemma userFrame_updateUserRow (userId : String) (db : DB) (f : UserRec → UserRec)
    (hf : ∀ x, tokenOnlyChange x (f x)) :
    userFrame userId db (updateUserRow db userId f) := by
  refine ⟨rfl, ?_⟩
  unfold updateUserRow
  induction db.users with
  | nil => exact List.Forall₂.nil
  | cons x xs ih =>
    refine List.Forall₂.cons ?_ ih
    by_cases hid : x.id = userId <;> simp [hid] <;> exact hf x

/-- `setupOAuthClient` either leaves the store unchanged or rewrites the
invoking user's row with a fresh `accessToken`/`tokenExpiry`. -/
lemma setupOAuthClient_fst_cases (db : DB) (userId : String) (t0 t1 : Int)
    (refreshO : String → Except JsError Credentials) :
    (setupOAuthClient db userId t0 t1 refreshO).1 = db ∨
    ∃ tok, (setupOAuthClient db userId t0 t1 refreshO).1 =
      updateUserRow db userId (fun u =>
        { u with accessToken := tok, tokenExpiry := t1 + 3600000 }) := by
  unfold setupOAuthClient
  cases hu : findUser db userId with
  | none => exact Or.inl rfl
  | some user =>
    dsimp only
    by_cases hexp : user.tokenExpiry ≤ t0
    · rw [if_pos hexp]
      cases hr : refreshO user.refreshToken with
      | error e => exact Or.inl rfl
      | ok newTokens => exact Or.inr ⟨newTokens.access_token.getD "", rfl⟩
    · rw [if_neg hexp]
      exact Or.inl rfl

lemma setupOAuthClient_userFrame (db : DB) (userId : String) (t0 t1 : Int)
    (refreshO : String → Except JsError Credentials) :
    userFrame userId db (setupOAuthClient db userId t0 t1 refreshO).1 := by
  rcases setupOAuthClient_fst_cases db userId t0 t1 refreshO with h | ⟨tok, h⟩
  · rw [h]; exact userFrame_refl userId db
  · rw [h]
    exact userFrame_updateUserRow userId db _ (fun x => ⟨rfl, rfl, rfl, rfl⟩)

lemma setupOAuthClient_webhooks (db : DB) (userId : String) (t0 t1 : Int)
    (refreshO : String → Except JsError Credentials) :
    (setupOAuthClient db userId t0 t1 refreshO).1.webhooks = db.webhooks := by
  rcases setupOAuthClient_fst_cases db userId t0 t1 refreshO with h | ⟨tok, h⟩ <;>
    rw [h] <;> rfl

lemma find?_map_idpres (l : List UserRec) (g : UserRec → UserRec) (v : String)
    (hg : ∀ x, (g x).id = x.id) :
    (l.map g).find? (fun x => x.id == v) = (l.find? (fun x => x.id == v)).map g := by
  induction l with
  | nil => rfl
  | cons x xs ih =>
    simp only [List.map_cons, List.find?]
    rw [hg x]
    cases h : (x.id == v) <;> simp [ih]

lemma findUser_updateUserRow (db : DB) (u v : String) (f : UserRec → UserRec)
    (hf : ∀ x, (f x).id = x.id) :
    findUser (updateUserRow db u f) v =
      (findUser db v).map (fun x => if x.id == u then f x else x) := by
  unfold findUser updateUserRow
  exact find?_map_idpres db.users _ v
    (fun x => by by_cases h : (x.id == u) = true <;> simp [h, hf])

lemma storedSyncToken_updateUserRow (db : DB) (u v : String)
    (f : UserRec → UserRec) (hid : ∀ x, (f x).id = x.id)
    (hst : ∀ x, (f x).syncToken = x.syncToken) :
    storedSyncToken (updateUserRow db u f) v = storedSyncToken db v := by
  unfold storedSyncToken
  rw [findUser_updateUserRow db u v f hid]
  cases findUser db v with
  | none => rfl
  | some x =>
    by_cases h : x.id = u <;> simp [h, hst]

lemma setupOAuthClient_syncToken (db : DB) (userId v : String) (t0 t1 : Int)
    (refreshO : String → Except JsError Credentials) :
    storedSyncToken (setupOAuthClient db userId t0 t1 refreshO).1 v =
      storedSyncToken db v := by
  rcases setupOAuthClient_fst_cases db userId t0 t1 refreshO with h | ⟨tok, h⟩
  · rw [h]
  · rw [h]
    exact storedSyncToken_updateUserRow db userId v _ (fun x => rfl) (fun x => rfl)

/-- One unfolding step of the pagination loop when the page carries a
`nextPageToken` (the loop continues). -/
lemma syncLoop_cons_some (db : DB) (userId : String) (acc : List CalendarEvent)
    (h : Bool) (page : EventsPage) (rest : List EventsPage) (tok : String)
    (hnp : page.nextPageToken = some tok) :
    syncLoop db userId acc h (page :: rest) =
      syncLoop db userId
        (if page.items.length > 0 then acc ++ page.items.map mapGEvent else acc)
        (if page.items.length > 0 then true else h) rest := by
  conv_lhs => rw [syncLoop]
  rw [hnp]

/-- One unfolding step of the pagination loop when the page carries no
`nextPageToken` (the loop stops). -/
lemma syncLoop_cons_none (db : DB) (userId : String) (acc : List CalendarEvent)
    (h : Bool) (page : EventsPage) (rest : List EventsPage)
    (hnp : page.nextPageToken = none) :
    syncLoop db userId acc h (page :: rest) =
      some ((match page.nextSyncToken with
             | some t => updateUserRow db userId (fun u => { u with syncToken := some t })
             | none => db),
        (if page.items.length > 0 then acc ++ page.items.map mapGEvent else acc),
        (if page.items.length > 0 then true else h)) := by
  conv_lhs => rw [syncLoop]
  rw [hnp]
  cases page.nextSyncToken <;> rfl

lemma syncLoop_wf (ps : List EventsPage) : ∀ (db : DB) (userId : String)
    (acc : List CalendarEvent) (h : Bool), wellFormedPages ps = true →
    syncLoop db userId acc h ps =
      some (finalSyncDb db userId ps,
        acc ++ ((ps.map EventsPage.items).flatten).map mapGEvent,
        h || !((ps.map EventsPage.items).flatten).isEmpty) := by
  induction ps with
  | nil =>
    intro db userId acc h hwf
    simp [wellFormedPages] at hwf
  | cons p rest ih =>
    cases rest with
    | nil =>
      intro db userId acc h hwf
      have hnpt : p.nextPageToken = none := by
        simpa [wellFormedPages, Option.isNone_iff_eq_none] using hwf
      rw [syncLoop_cons_none db userId acc h p [] hnpt]
      cases hst : p.nextSyncToken <;> cases hi : p.items <;>
        simp [finalSyncDb, hst, hi]
    | cons q rest' =>
      intro db userId acc h hwf
      simp only [wellFormedPages, Bool.and_eq_true] at hwf
      obtain ⟨h1, hwf'⟩ := hwf
      obtain ⟨tok, htok⟩ := Option.isSome_iff_exists.mp h1
      rw [syncLoop_cons_some db userId acc h p (q :: rest') tok htok,
        ih _ _ _ _ hwf']
      cases hi : p.items <;> simp [finalSyncDb, hi, List.append_assoc]

/-- Unfolding of `syncCalendarEvents` when token setup throws. -/
lemma syncCalendarEvents_setup_error (fuel : Nat) (db : DB) (userId : String)
    (t0 t1 : Int) (refreshO : String → Except JsError Credentials)
    (fetch : Option String → Except JsError (List EventsPage))
    (db1 : DB) (e : JsError)
    (hsetup : setupOAuthClient db userId t0 t1 refreshO = (db1, .error e)) :
    syncCalendarEvents (fuel + 1) db userId t0 t1 refreshO fetch =
      some (db1, .error e) := by
  conv_lhs => rw [syncCalendarEvents]
  simp only [hsetup]

/-- Unfolding of `syncCalendarEvents` when the user row is missing. -/
lemma syncCalendarEvents_find_none (fuel : Nat) (db : DB) (userId : String)
    (t0 t1 : Int) (refreshO : String → Except JsError Credentials)
    (fetch : Option String → Except JsError (List EventsPage)) (db1 : DB)
    (hsetup : setupOAuthClient db userId t0 t1 refreshO = (db1, .ok ()))
    (hfind : findUser db1 userId = none) :
    syncCalendarEvents (fuel + 1) db userId t0 t1 refreshO fetch =
      some (db1, .error (.appError "User not found")) := by
  conv_lhs => rw [syncCalendarEvents]
  simp only [hsetup, hfind]

/-- Unfolding of `syncCalendarEvents` when `events.list` succeeds. -/
lemma syncCalendarEvents_fetch_ok (fuel : Nat) (db : DB) (userId : String)
    (t0 t1 : Int) (refreshO : String → Except JsError Credentials)
    (fetch : Option String → Except JsError (List EventsPage))
    (db1 : DB) (user : UserRec) (pages : List EventsPage)
    (hsetup : setupOAuthClient db userId t0 t1 refreshO = (db1, .ok ()))
    (hfind : findUser db1 userId = some user)
    (hfetch : fetch user.syncToken = .ok pages) :
    syncCalendarEvents (fuel + 1) db userId t0 t1 refreshO fetch =
      match syncLoop db1 userId [] false pages with
      | none => none
      | some (db2, es, hc) => some (db2, .ok (es, hc)) := by
  conv_lhs => rw [syncCalendarEvents]
  simp only [hsetup, hfind, hfetch]

/-- Unfolding of `syncCalendarEvents` when `events.list` throws. -/
lemma syncCalendarEvents_fetch_error (fuel : Nat) (db : DB) (userId : String)
    (t0 t1 : Int) (refreshO : String → Except JsError Credentials)
    (fetch : Option String → Except JsError (List EventsPage))
    (db1 : DB) (user : UserRec) (e : JsError)
    (hsetup : setupOAuthClient db userId t0 t1 refreshO = (db1, .ok ()))
    (hfind : findUser db1 userId = some user)
    (hfetch : fetch user.syncToken = .error e) :
    syncCalendarEvents (fuel + 1) db userId t0 t1 refreshO fetch =
      if errCode e = some 410 then
        syncCalendarEvents fuel
          (updateUserRow db1 userId (fun u => { u with syncToken := none }))
          userId t0 t1 refreshO fetch
      else some (db1, .error e) := by
  conv_lhs => rw [syncCalendarEvents]
  simp only [hsetup, hfind, hfetch]

/-- The direct (no-410) success path of `syncCalendarEvents`: for a
well-formed upstream response, the result is the concatenation of the
mapped items of every page, `hasChanges` is exactly non-emptiness of
that concatenation, and the store becomes `finalSyncDb`. -/
lemma syncCalendarEvents_direct (fuel : Nat) (db : DB) (userId : String)
    (t0 t1 : Int) (refreshO : String → Except JsError Credentials)
    (fetch : Option String → Except JsError (List EventsPage))
    (db1 : DB) (user : UserRec) (pages : List EventsPage)
    (hsetup : setupOAuthClient db userId t0 t1 refreshO = (db1, .ok ()))
    (hfind : findUser db1 userId = some user)
    (hfetch : fetch user.syncToken = .ok pages)
    (hwf : wellFormedPages pages = true) :
    syncCalendarEvents (fuel + 1) db userId t0 t1 refreshO fetch =
      some (finalSyncDb db1 userId pages,
        .ok (((pages.map EventsPage.items).flatten).map mapGEvent,
          !((pages.map EventsPage.items).flatten).isEmpty)) := by
  rw [syncCalendarEvents_fetch_ok fuel db userId t0 t1 refreshO fetch db1 user
    pages hsetup hfind hfetch]
  rw [syncLoop_wf pages db1 userId [] false hwf]
  simp

/-- Any successful run of the pagination loop returns the initial
accumulator extended by some list `m` of mapped events, with the
`hasChanges` flag raised exactly when new events arrived. -/
lemma syncLoop_shape (ps : List EventsPage) : ∀ (db : DB) (userId : String)
    (acc : List CalendarEvent) (h : Bool) (db' : DB)
    (es : List CalendarEvent) (hc : Bool),
    syncLoop db userId acc h ps = some (db', es, hc) →
    ∃ m, es = acc ++ m ∧ hc = (h || !m.isEmpty) := by
  induction ps with
  | nil =>
    intro db userId acc h db' es hc heq
    simp [syncLoop] at heq
  | cons p rest ih =>
    intro db userId acc h db' es hc heq
    cases hnp : p.nextPageToken with
    | some tok =>
      rw [syncLoop_cons_some db userId acc h p rest tok hnp] at heq
      obtain ⟨m, hm, hb⟩ := ih _ _ _ _ _ _ _ heq
      cases hi : p.items with
      | nil =>
        rw [hi] at hm hb
        simp only [List.length_nil, gt_iff_lt, lt_self_iff_false, if_false] at hm hb
        exact ⟨m, hm, hb⟩
      | cons x xs =>
        rw [hi] at hm hb
        refine ⟨(x :: xs).map mapGEvent ++ m, ?_, ?_⟩
        · simpa [List.append_assoc] using hm
        · simpa using hb
    | none =>
      rw [syncLoop_cons_none db userId acc h p rest hnp] at heq
      simp only [Option.some.injEq, Prod.mk.injEq] at heq
      obtain ⟨-, hes, hhc⟩ := heq
      cases hi : p.items with
      | nil =>
        rw [hi] at hes hhc
        refine ⟨[], ?_, ?_⟩ <;> simp_all
      | cons x xs =>
        rw [hi] at hes hhc
        refine ⟨(x :: xs).map mapGEvent, ?_, ?_⟩ <;> simp_all

/-- For any fuel and oracles, a successful `syncCalendarEvents` result
has `hasChanges = true` exactly when the returned event list is
nonempty. -/
lemma syncCalendarEvents_hasChanges : ∀ (fuel : Nat) (db : DB)
    (userId : String) (t0 t1 : Int)
    (refreshO : String → Except JsError Credentials)
    (fetch : Option String → Except JsError (List EventsPage))
    (db' : DB) (es : List CalendarEvent) (hc : Bool),
    syncCalendarEvents fuel db userId t0 t1 refreshO fetch =
      some (db', .ok (es, hc)) →
    (hc = true ↔ es ≠ []) := by
  intro fuel
  induction fuel with
  | zero =>
    intro db userId t0 t1 refreshO fetch db' es hc h
    simp [syncCalendarEvents] at h
  | succ n ih =>
    intro db userId t0 t1 refreshO fetch db' es hc h
    rcases hs : setupOAuthClient db userId t0 t1 refreshO with ⟨db1, r⟩
    cases r with
    | error e =>
      rw [syncCalendarEvents_setup_error n db userId t0 t1 refreshO fetch db1 e hs] at h
      simp at h
    | ok u =>
      cases u
      cases hfu : findUser db1 userId with
      | none =>
        rw [syncCalendarEvents_find_none n db userId t0 t1 refreshO fetch db1 hs hfu] at h
        simp at h
      | some user =>
        cases hfe : fetch user.syncToken with
        | error e =>
          rw [syncCalendarEvents_fetch_error n db userId t0 t1 refreshO fetch
            db1 user e hs hfu hfe] at h
          by_cases h410 : errCode e = some 410
          · rw [if_pos h410] at h
            exact ih _ _ _ _ _ _ _ _ _ h
          · rw [if_neg h410] at h
            simp at h
        | ok pages =>
          rw [syncCalendarEvents_fetch_ok n db userId t0 t1 refreshO fetch
            db1 user pages hs hfu hfe] at h
          cases hl : syncLoop db1 userId [] false pages with
          | none => rw [hl] at h; simp at h
          | some trip =>
            obtain ⟨db2, es2, hc2⟩ := trip
            rw [hl] at h
            simp only [Option.some.injEq, Prod.mk.injEq, Except.ok.injEq] at h
            obtain ⟨-, hes, hhc⟩ := h
            obtain ⟨m, hm, hb⟩ := syncLoop_shape pages db1 userId [] false db2 es2 hc2 hl
            subst hes hhc
            rw [hm, hb]
            cases m <;> simp

lemma fetchAllEvents_fst (db : DB) (userId : String) (t0 t1 : Int)
    (refreshO : String → Except JsError Credentials)
    (listResult : Except JsError EventsPage) :
    (fetchAllEvents db userId t0 t1 refreshO listResult).1 =
      (setupOAuthClient db userId t0 t1 refreshO).1 := by
  unfold fetchAllEvents
  rcases hs : setupOAuthClient db userId t0 t1 refreshO with ⟨db1, r⟩
  cases r <;> cases listResult <;> rfl

lemma createEvent_fst (db : DB) (userId : String) (eventData : EventInput)
    (t0 t1 : Int) (refreshO : String → Except JsError Credentials)
    (insertResult : Except JsError GEvent) :
    (createEvent db userId eventData t0 t1 refreshO insertResult).1 =
      (setupOAuthClient db userId t0 t1 refreshO).1 := by
  unfold createEvent
  rcases hs : setupOAuthClient db userId t0 t1 refreshO with ⟨db1, r⟩
  cases r <;> cases insertResult <;> rfl

lemma updateEvent_fst (db : DB) (userId eventId : String)
    (eventData : EventInput) (t0 t1 : Int)
    (refreshO : String → Except JsError Credentials)
    (getResult updResult : Except JsError GEvent) :
    (updateEvent db userId eventId eventData t0 t1 refreshO getResult updResult).1 =
      (setupOAuthClient db userId t0 t1 refreshO).1 := by
  unfold updateEvent
  rcases hs : setupOAuthClient db userId t0 t1 refreshO with ⟨db1, r⟩
  cases r with
  | error e => rfl
  | ok u => dsimp only; split <;> rfl

lemma deleteEvent_fst (db : DB) (userId eventId : String) (t0 t1 : Int)
    (refreshO : String → Except JsError Credentials)
    (getResult : Except JsError GEvent) (delResult : Except JsError Unit) :
    (deleteEvent db userId eventId t0 t1 refreshO getResult delResult).1 =
      (setupOAuthClient db userId t0 t1 refreshO).1 := by
  unfold deleteEvent
  rcases hs : setupOAuthClient db userId t0 t1 refreshO with ⟨db1, r⟩
  cases r with
  | error e => rfl
  | ok u => dsimp only; split <;> rfl

lemma stopWebhook_ok_webhooks (db : DB) (channelId resourceId : String)
    (stopO : String → String → Except JsError Unit) (db1 : DB) (u : Unit)
    (hok : stopWebhook db channelId resourceId stopO = (db1, .ok u)) :
    db1.webhooks = db.webhooks.filter (fun w => w.channelId != channelId) := by
  unfold stopWebhook at hok
  cases hso : stopO channelId resourceId with
  | error e => rw [hso] at hok; simp at hok
  | ok v =>
    rw [hso] at hok
    simp only [Prod.mk.injEq] at hok
    rw [← hok.1]

/-- After the cleanup loop of `setupWebhook` has processed every webhook
row previously found for the user, no row of that user remains: each
iteration removes its row either inside `stopWebhook` (on upstream
success) or by the forced delete (on upstream failure). -/
lemma cleanupWebhooks_clears (stopO : String → String → Except JsError Unit)
    (userId : String) :
    ∀ (l : List WebhookRec) (db : DB),
      (∀ w ∈ db.webhooks, w.userId = userId → w ∈ l) →
      ∀ w ∈ (cleanupWebhooks db stopO l).webhooks, w.userId ≠ userId := by
  intro l
  induction l with
  | nil =>
    intro db hcov w hw hequ
    exact absurd (hcov w hw hequ) (List.not_mem_nil w)
  | cons wh rest ih =>
    intro db hcov
    rw [cleanupWebhooks]
    rcases hst : stopWebhook db wh.channelId wh.resourceId stopO with ⟨db1, r⟩
    cases r with
    | ok u =>
      apply ih db1
      intro w hw hequ
      have hwb : db1.webhooks = db.webhooks.filter (fun x => x.channelId != wh.channelId) :=
        stopWebhook_ok_webhooks db wh.channelId wh.resourceId stopO db1 u hst
      rw [hwb] at hw
      obtain ⟨hmem, hne⟩ := List.mem_filter.mp hw
      cases List.mem_cons.mp (hcov w hmem hequ) with
      | inl heq => subst heq; simp at hne
      | inr hmem' => exact hmem'
    | error e =>
      apply ih _
      intro w hw hequ
      obtain ⟨hmem, hne⟩ := List.mem_filter.mp hw
      cases List.mem_cons.mp (hcov w hmem hequ) with
      | inl heq => subst heq; simp at hne
      | inr hmem' => exact hmem'

/-- A found user's `id` matches the looked-up key. -/
lemma findUser_id (db : DB) (userId : String) (user : UserRec)
    (hfind : findUser db userId = some user) : user.id = userId := by
  unfold findUser at hfind
  have h := List.find?_some hfind
  simpa using h

lemma storedSyncToken_set (db : DB) (userId : String) (user : UserRec)
    (t : Option String) (hfind : findUser db userId = some user) :
    storedSyncToken
      (updateUserRow db userId (fun u => { u with syncToken := t })) userId =
      some t := by
  unfold storedSyncToken
  rw [findUser_updateUserRow db userId userId
    (fun u => { u with syncToken := t }) (fun x => rfl), hfind]
  simp [findUser_id db userId user hfind]

/-- `finalSyncDb` is determined by the last page of the sequence. -/
lemma finalSyncDb_getLast (db : DB) (userId : String) :
    ∀ (ps : List EventsPage) (plast : EventsPage), ps.getLast? = some plast →
    finalSyncDb db userId ps =
      match plast.nextSyncToken with
      | some t => updateUserRow db userId (fun u => { u with syncToken := some t })
      | none => db := by
  intro ps
  induction ps with
  | nil => intro plast h; simp at h
  | cons p rest ih =>
    intro plast h
    cases rest with
    | nil =>
      have hp : plast = p := by simpa using h.symm
      subst hp
      rw [finalSyncDb]
    | cons q rest' =>
      rw [List.getLast?_cons_cons] at h
      rw [show finalSyncDb db userId (p :: q :: rest') =
        finalSyncDb db userId (q :: rest') from rfl]
      exact ih plast h

/-- Zeta-reduced unfolding of `setupWebhook`. -/
lemma setupWebhook_eq (db : DB) (userId : String) (t0 t1 : Int)
    (refreshO : String → Except JsError Credentials)
    (stopO : String → String → Except JsError Unit)
    (nowMs : Int) (newRowId : String) (watchResult : Except JsError String) :
    setupWebhook db userId t0 t1 refreshO stopO nowMs newRowId watchResult =
      match setupOAuthClient
          (cleanupWebhooks db stopO
            (db.webhooks.filter (fun w => w.userId == userId)))
          userId t0 t1 refreshO with
      | (db2, .error e) => (db2, .error e)
      | (db2, .ok _) =>
        match watchResult with
        | .error e => (db2, .error e)
        | .ok resourceId =>
          ({ db2 with webhooks := db2.webhooks ++
            [{ id := newRowId, userId := userId,
               channelId := userId ++ "-" ++ toString nowMs,
               resourceId := resourceId,
               expiration := nowMs + 7 * 24 * 60 * 60 * 1000 }] },
           .ok ()) := rfl

lemma setupWebhook_ok_struct (db : DB) (userId : String) (t0 t1 : Int)
    (refreshO : String → Except JsError Credentials)
    (stopO : String → String → Except JsError Unit)
    (nowMs : Int) (newRowId : String) (watchResult : Except JsError String)
    (db' : DB)
    (hok : setupWebhook db userId t0 t1 refreshO stopO nowMs newRowId
      watchResult = (db', .ok ())) :
    ∃ resourceId db2,
      watchResult = .ok resourceId ∧
      (setupOAuthClient
        (cleanupWebhooks db stopO
          (db.webhooks.filter (fun w => w.userId == userId)))
        userId t0 t1 refreshO).1 = db2 ∧
      db' = { db2 with webhooks := db2.webhooks ++
        [{ id := newRowId, userId := userId,
           channelId := userId ++ "-" ++ toString nowMs,
           resourceId := resourceId,
           expiration := nowMs + 7 * 24 * 60 * 60 * 1000 }] } := by
  rw [setupWebhook_eq] at hok
  rcases hs : setupOAuthClient
      (cleanupWebhooks db stopO
        (db.webhooks.filter (fun w => w.userId == userId)))
      userId t0 t1 refreshO with ⟨db2, r⟩
  rw [hs] at hok
  cases r with
  | error e => simp at hok
  | ok u =>
    cases watchResult with
    | error e => simp at hok
    | ok resourceId =>
      simp only [Prod.mk.injEq] at hok
      exact ⟨resourceId, db2, rfl, rfl, hok.1.symm⟩

lemma fetchAllEvents_error (db : DB) (userId : String) (t0 t1 : Int)
    (refreshO : String → Except JsError Credentials) (db1 : DB) (e : JsError)
    (hsetup : setupOAuthClient db userId t0 t1 refreshO = (db1, .ok ())) :
    fetchAllEvents db userId t0 t1 refreshO (.error e) = (db1, .error e) := by
  unfold fetchAllEvents
  rw [hsetup]

lemma createEvent_error (db : DB) (userId : String) (eventData : EventInput)
    (t0 t1 : Int) (refreshO : String → Except JsError Credentials)
    (db1 : DB) (e : JsError)
    (hsetup : setupOAuthClient db userId t0 t1 refreshO = (db1, .ok ())) :
    createEvent db userId eventData t0 t1 refreshO (.error e) = (db1, .error e) := by
  unfold createEvent
  rw [hsetup]

lemma updateEvent_getError (db : DB) (userId eventId : String)
    (eventData : EventInput) (t0 t1 : Int)
    (refreshO : String → Except JsError Credentials) (db1 : DB) (e : JsError)
    (updResult : Except JsError GEvent)
    (hsetup : setupOAuthClient db userId t0 t1 refreshO = (db1, .ok ())) :
    updateEvent db userId eventId eventData t0 t1 refreshO (.error e) updResult =
      (db1, .error (rewriteUpdateError e)) := by
  unfold updateEvent
  rw [hsetup]

lemma deleteEvent_getError (db : DB) (userId eventId : String) (t0 t1 : Int)
    (refreshO : String → Except JsError Credentials) (db1 : DB) (e : JsError)
    (delResult : Except JsError Unit)
    (hsetup : setupOAuthClient db userId t0 t1 refreshO = (db1, .ok ())) :
    deleteEvent db userId eventId t0 t1 refreshO (.error e) delResult =
      (db1, .error (rewriteDeleteError e)) := by
  unfold deleteEvent
  rw [hsetup]

lemma rewriteUpdateError_403 (e : JsError) (h : errCode e = some 403) :
    rewriteUpdateError e =
      .appError "You do not have permission to update this event." := by
  cases e with
  | appError m => simp [errCode] at h
  | upstream c m =>
    simp only [errCode, Option.some.injEq] at h
    subst h
    rfl

lemma rewriteDeleteError_404 (e : JsError) (h : errCode e = some 404) :
    rewriteDeleteError e =
      .appError "Event not found or has already been deleted." := by
  cases e with
  | appError m => simp [errCode] at h
  | upstream c m =>
    simp only [errCode, Option.some.injEq] at h
    subst h
    rfl

/-- C1: the sync operation is a direct pass-through to the syncToken
pagination API: when the upstream listing for the user's stored
`syncToken` succeeds with a well-formed page sequence,
`syncCalendarEvents` returns exactly the concatenation of the items of
every page, each mapped to a `CalendarEvent` by the field mapping, with
no filtering, reordering, or other transformation. -/
theorem sync_passthrough_concatenation (fuel : Nat) (db : DB)
    (userId : String) (t0 t1 : Int)
    (refreshO : String → Except JsError Credentials)
    (fetch : Option String → Except JsError (List EventsPage))
    (db1 : DB) (user : UserRec) (pages : List EventsPage)
    (hsetup : setupOAuthClient db userId t0 t1 refreshO = (db1, .ok ()))
    (hfind : findUser db1 userId = some user)
    (hfetch : fetch user.syncToken = .ok pages)
    (hwf : wellFormedPages pages = true) :
    ∃ db2 hc, syncCalendarEvents (fuel + 1) db userId t0 t1 refreshO fetch =
      some (db2, .ok (((pages.map EventsPage.items).flatten).map mapGEvent, hc)) :=
  ⟨finalSyncDb db1 userId pages, !((pages.map EventsPage.items).flatten).isEmpty,
    syncCalendarEvents_direct fuel db userId t0 t1 refreshO fetch db1 user
      pages hsetup hfind hfetch hwf⟩

/-- Witness for C1 on a concrete two-page response. -/
theorem sync_passthrough_concatenation_witness :
    (setupOAuthClient exDb "u1" 1000 1000 exNoRefresh = (exDb, .ok ()) ∧
     findUser exDb "u1" = some exUser ∧
     exFetchTwoPages exUser.syncToken = .ok [exPage1, exPage2] ∧
     wellFormedPages [exPage1, exPage2] = true) ∧
    (∃ db2 hc, syncCalendarEvents 1 exDb "u1" 1000 1000 exNoRefresh
        exFetchTwoPages =
      some (db2, .ok ((([exPage1, exPage2].map EventsPage.items).flatten).map
        mapGEvent, hc))) :=
  ⟨⟨rfl, rfl, rfl, rfl⟩,
   sync_passthrough_concatenation 0 exDb "u1" 1000 1000 exNoRefresh
     exFetchTwoPages exDb exUser [exPage1, exPage2] rfl rfl rfl rfl⟩

/-- C2 counterexample: when the listing with the stored sync token fails
with an upstream 410 error, `syncCalendarEvents` does not surface the
error: it clears the stored `syncToken` (a recovery action on stored
state), calls the upstream again without a token, and returns that
second call's result. -/
theorem sync_410_retry_counterexample :
    exFetch410 exUser.syncToken =
      .error (.upstream 410 "Sync token is no longer valid") ∧
    storedSyncToken exDb "u1" = some (some "oldSync") ∧
    syncCalendarEvents 2 exDb "u1" 1000 1000 exNoRefresh exFetch410 =
      some ({ users := [{ exUser with syncToken := some "newSync" }],
              webhooks := [] },
        .ok ([mapGEvent exGEvent2], true)) :=
  ⟨rfl, rfl, rfl⟩

/-- C2 (amended): apart from the 410 case — in which `syncCalendarEvents`
clears the stored `syncToken` and re-enters itself for a full sync — a
failed upstream listing is surfaced to the caller unchanged, with no
retry and no change to stored state beyond the token refresh of
`setupOAuthClient`. -/
theorem sync_upstream_error_handling (fuel : Nat) (db : DB)
    (userId : String) (t0 t1 : Int)
    (refreshO : String → Except JsError Credentials)
    (fetch : Option String → Except JsError (List EventsPage))
    (db1 : DB) (user : UserRec) (e : JsError)
    (hsetup : setupOAuthClient db userId t0 t1 refreshO = (db1, .ok ()))
    (hfind : findUser db1 userId = some user)
    (hfetch : fetch user.syncToken = .error e) :
    (errCode e ≠ some 410 →
      syncCalendarEvents (fuel + 1) db userId t0 t1 refreshO fetch =
        some (db1, .error e)) ∧
    (errCode e = some 410 →
      syncCalendarEvents (fuel + 1) db userId t0 t1 refreshO fetch =
        syncCalendarEvents fuel
          (updateUserRow db1 userId (fun u => { u with syncToken := none }))
          userId t0 t1 refreshO fetch) := by
  constructor
  · intro h410
    rw [syncCalendarEvents_fetch_error fuel db userId t0 t1 refreshO fetch
      db1 user e hsetup hfind hfetch, if_neg h410]
  · intro h410
    rw [syncCalendarEvents_fetch_error fuel db userId t0 t1 refreshO fetch
      db1 user e hsetup hfind hfetch, if_pos h410]

/-- Witness for the amended C2 on a concrete 403 failure. -/
theorem sync_upstream_error_handling_witness :
    (setupOAuthClient exDb "u1" 1000 1000 exNoRefresh = (exDb, .ok ()) ∧
     findUser exDb "u1" = some exUser ∧
     exFetch403 exUser.syncToken = .error (.upstream 403 "Forbidden")) ∧
    ((errCode (.upstream 403 "Forbidden") ≠ some 410 →
       syncCalendarEvents 1 exDb "u1" 1000 1000 exNoRefresh exFetch403 =
         some (exDb, .error (.upstream 403 "Forbidden"))) ∧
     (errCode (.upstream 403 "Forbidden") = some 410 →
       syncCalendarEvents 1 exDb "u1" 1000 1000 exNoRefresh exFetch403 =
         syncCalendarEvents 0
           (updateUserRow exDb "u1" (fun u => { u with syncToken := none }))
           "u1" 1000 1000 exNoRefresh exFetch403)) :=
  ⟨⟨rfl, rfl, rfl⟩,
   sync_upstream_error_handling 0 exDb "u1" 1000 1000 exNoRefresh exFetch403
     exDb exUser (.upstream 403 "Forbidden") rfl rfl rfl⟩

/-- C3 counterexample: `fetchAllEvents` re-throws the raw upstream error
unchanged — the caller receives the original upstream error object, not
a rewritten user-friendly message. -/
theorem fetchAllEvents_raw_error_counterexample :
    fetchAllEvents exDb "u1" 1000 1000 exNoRefresh
      (.error (.upstream 500 "Backend Error")) =
      (exDb, .error (.upstream 500 "Backend Error")) := rfl

/-- C3 (amended): only `updateEvent` and `deleteEvent` rewrite upstream
errors into user-friendly messages, and only for upstream codes 400
(birthday / not-valid messages, and for delete also the already-deleted
message), 403 and 404; `fetchAllEvents`, `createEvent`,
`syncCalendarEvents` (on non-410 errors), `setupWebhook` and
`stopWebhook` re-throw the raw upstream error unchanged, as do
`updateEvent` and `deleteEvent` for every other code or message (and
for plain `Error`s, which carry no code). -/
theorem upstream_error_rewriting (db : DB) (userId eventId : String)
    (eventData : EventInput) (t0 t1 : Int)
    (refreshO : String → Except JsError Credentials) (db1 : DB)
    (hsetup : setupOAuthClient db userId t0 t1 refreshO = (db1, .ok ())) :
    (∀ e, fetchAllEvents db userId t0 t1 refreshO (.error e) =
      (db1, .error e)) ∧
    (∀ e, createEvent db userId eventData t0 t1 refreshO (.error e) =
      (db1, .error e)) ∧
    (∀ fuel fetch user e, findUser db1 userId = some user →
      fetch user.syncToken = .error e → errCode e ≠ some 410 →
      syncCalendarEvents (fuel + 1) db userId t0 t1 refreshO fetch =
        some (db1, .error e)) ∧
    (∀ (db0 : DB) channelId resourceId stopO e,
      stopO channelId resourceId = .error e →
      stopWebhook db0 channelId resourceId stopO = (db0, .error e)) ∧
    (∀ (db0 db2 : DB) stopO (nowMs : Int) (newRowId : String) e,
      setupOAuthClient
        (cleanupWebhooks db0 stopO
          (db0.webhooks.filter (fun w => w.userId == userId)))
        userId t0 t1 refreshO = (db2, .ok ()) →
      setupWebhook db0 userId t0 t1 refreshO stopO nowMs newRowId
        (.error e) = (db2, .error e)) ∧
    (∀ e updResult,
      updateEvent db userId eventId eventData t0 t1 refreshO (.error e)
        updResult = (db1, .error (rewriteUpdateError e))) ∧
    (∀ e delResult,
      deleteEvent db userId eventId t0 t1 refreshO (.error e) delResult =
        (db1, .error (rewriteDeleteError e))) ∧
    (∀ m, (strIncludes m "birthday" ||
        strIncludes m "not valid for this event type") = true →
      rewriteUpdateError (.upstream 400 m) =
        .appError "Cannot update birthday or system events. These events are managed by Google.") ∧
    (∀ m, rewriteUpdateError (.upstream 403 m) =
      .appError "You do not have permission to update this event.") ∧
    (∀ m, rewriteUpdateError (.upstream 404 m) =
      .appError "Event not found or has been deleted.") ∧
    (∀ c m, c ≠ 400 → c ≠ 403 → c ≠ 404 →
      rewriteUpdateError (.upstream c m) = .upstream c m) ∧
    (∀ m, (strIncludes m "birthday" ||
        strIncludes m "not valid for this event type") = false →
      rewriteUpdateError (.upstream 400 m) = .upstream 400 m) ∧
    (∀ m, rewriteUpdateError (.appError m) = .appError m) ∧
    (∀ m, (strIncludes m "birthday" ||
        strIncludes m "not valid for this event type") = true →
      rewriteDeleteError (.upstream 400 m) =
        .appError "Cannot delete birthday or system events. These events are managed by Google.") ∧
    (∀ m, (strIncludes m "birthday" ||
        strIncludes m "not valid for this event type") = false →
      strIncludes m "deleted" = true →
      rewriteDeleteError (.upstream 400 m) =
        .appError "Event has already been deleted.") ∧
    (∀ m, rewriteDeleteError (.upstream 403 m) =
      .appError "You do not have permission to delete this event.") ∧
    (∀ m, rewriteDeleteError (.upstream 404 m) =
      .appError "Event not found or has already been deleted.") ∧
    (∀ c m, c ≠ 400 → c ≠ 403 → c ≠ 404 →
      rewriteDeleteError (.upstream c m) = .upstream c m) ∧
    (∀ m, (strIncludes m "birthday" ||
        strIncludes m "not valid for this event type") = false →
      strIncludes m "deleted" = false →
      rewriteDeleteError (.upstream 400 m) = .upstream 400 m) ∧
    (∀ m, rewriteDeleteError (.appError m) = .appError m) := by
  refine ⟨fun e => fetchAllEvents_error db userId t0 t1 refreshO db1 e hsetup,
    fun e => createEvent_error db userId eventData t0 t1 refreshO db1 e hsetup,
    ?_, ?_, ?_,
    fun e updResult => updateEvent_getError db userId eventId eventData t0 t1
      refreshO db1 e updResult hsetup,
    fun e delResult => deleteEvent_getError db userId eventId t0 t1 refreshO
      db1 e delResult hsetup,
    ?_, fun m => rfl, fun m => rfl, ?_, ?_, fun m => rfl,
    ?_, ?_, fun m => rfl, fun m => rfl, ?_, ?_, fun m => rfl⟩
  · intro fuel fetch user e hfind hfetch h410
    rw [syncCalendarEvents_fetch_error fuel db userId t0 t1 refreshO fetch
      db1 user e hsetup hfind hfetch, if_neg h410]
  · intro db0 channelId resourceId stopO e hstop
    unfold stopWebhook
    rw [hstop]
  · intro db0 db2 stopO nowMs newRowId e hs2
    rw [setupWebhook_eq, hs2]
  · intro m hm
    simp [rewriteUpdateError, hm]
  · intro c m h1 h2 h3
    have b1 : (c == 400) = false := beq_eq_false_iff_ne.mpr h1
    have b2 : (c == 403) = false := beq_eq_false_iff_ne.mpr h2
    have b3 : (c == 404) = false := beq_eq_false_iff_ne.mpr h3
    simp [rewriteUpdateError, b1, b2, b3]
  · intro m hm
    simp [rewriteUpdateError, hm]
  · intro m hm
    simp [rewriteDeleteError, hm]
  · intro m hm1 hm2
    simp [rewriteDeleteError, hm1, hm2]
  · intro c m h1 h2 h3
    have b1 : (c == 400) = false := beq_eq_false_iff_ne.mpr h1
    have b2 : (c == 403) = false := beq_eq_false_iff_ne.mpr h2
    have b3 : (c == 404) = false := beq_eq_false_iff_ne.mpr h3
    simp [rewriteDeleteError, b1, b2, b3]
  · intro m hm1 hm2
    simp [rewriteDeleteError, hm1, hm2]

/-- Witness for the amended C3: the full error-handling characterization
instantiated at a concrete store and user. -/
theorem upstream_error_rewriting_witness :
    (setupOAuthClient exDb "u1" 1000 1000 exNoRefresh = (exDb, .ok ())) ∧
    ((∀ e, fetchAllEvents exDb "u1" 1000 1000 exNoRefresh (.error e) =
       (exDb, .error e)) ∧
     (∀ e, createEvent exDb "u1" {} 1000 1000 exNoRefresh (.error e) =
       (exDb, .error e)) ∧
     (∀ fuel fetch user e, findUser exDb "u1" = some user →
       fetch user.syncToken = .error e → errCode e ≠ some 410 →
       syncCalendarEvents (fuel + 1) exDb "u1" 1000 1000 exNoRefresh fetch =
         some (exDb, .error e)) ∧
     (∀ (db0 : DB) channelId resourceId stopO e,
       stopO channelId resourceId = .error e →
       stopWebhook db0 channelId resourceId stopO = (db0, .error e)) ∧
     (∀ (db0 db2 : DB) stopO (nowMs : Int) (newRowId : String) e,
       setupOAuthClient
         (cleanupWebhooks db0 stopO
           (db0.webhooks.filter (fun w => w.userId == "u1")))
         "u1" 1000 1000 exNoRefresh = (db2, .ok ()) →
       setupWebhook db0 "u1" 1000 1000 exNoRefresh stopO nowMs newRowId
         (.error e) = (db2, .error e)) ∧
     (∀ e updResult,
       updateEvent exDb "u1" "e1" {} 1000 1000 exNoRefresh (.error e)
         updResult = (exDb, .error (rewriteUpdateError e))) ∧
     (∀ e delResult,
       deleteEvent exDb "u1" "e1" 1000 1000 exNoRefresh (.error e)
         delResult = (exDb, .error (rewriteDeleteError e))) ∧
     (∀ m, (strIncludes m "birthday" ||
         strIncludes m "not valid for this event type") = true →
       rewriteUpdateError (.upstream 400 m) =
         .appError "Cannot update birthday or system events. These events are managed by Google.") ∧
     (∀ m, rewriteUpdateError (.upstream 403 m) =
       .appError "You do not have permission to update this event.") ∧
     (∀ m, rewriteUpdateError (.upstream 404 m) =
       .appError "Event not found or has been deleted.") ∧
     (∀ c m, c ≠ 400 → c ≠ 403 → c ≠ 404 →
       rewriteUpdateError (.upstream c m) = .upstream c m) ∧
     (∀ m, (strIncludes m "birthday" ||
         strIncludes m "not valid for this event type") = false →
       rewriteUpdateError (.upstream 400 m) = .upstream 400 m) ∧
     (∀ m, rewriteUpdateError (.appError m) = .appError m) ∧
     (∀ m, (strIncludes m "birthday" ||
         strIncludes m "not valid for this event type") = true →
       rewriteDeleteError (.upstream 400 m) =
         .appError "Cannot delete birthday or system events. These events are managed by Google.") ∧
     (∀ m, (strIncludes m "birthday" ||
         strIncludes m "not valid for this event type") = false →
       strIncludes m "deleted" = true →
       rewriteDeleteError (.upstream 400 m) =
         .appError "Event has already been deleted.") ∧
     (∀ m, rewriteDeleteError (.upstream 403 m) =
       .appError "You do not have permission to delete this event.") ∧
     (∀ m, rewriteDeleteError (.upstream 404 m) =
       .appError "Event not found or has already been deleted.") ∧
     (∀ c m, c ≠ 400 → c ≠ 403 → c ≠ 404 →
       rewriteDeleteError (.upstream c m) = .upstream c m) ∧
     (∀ m, (strIncludes m "birthday" ||
         strIncludes m "not valid for this event type") = false →
       strIncludes m "deleted" = false →
       rewriteDeleteError (.upstream 400 m) = .upstream 400 m) ∧
     (∀ m, rewriteDeleteError (.appError m) = .appError m)) :=
  ⟨rfl,
   upstream_error_rewriting exDb "u1" "e1" {} 1000 1000 exNoRefresh exDb rfl⟩

/-- C4: `createEvent`, `updateEvent` and `deleteEvent` store no event
data locally: for every store and every oracle outcome, the `Webhook`
table is unchanged, every other user's row is unchanged, and the
invoking user's row changes at most in `accessToken` and `tokenExpiry`
(the token-refresh step of `setupOAuthClient`). -/
theorem eventOps_no_local_event_storage (db : DB) (userId eventId : String)
    (eventData : EventInput) (t0 t1 : Int)
    (refreshO : String → Except JsError Credentials)
    (insertResult getResult updResult : Except JsError GEvent)
    (delResult : Except JsError Unit) :
    userFrame userId db
      (createEvent db userId eventData t0 t1 refreshO insertResult).1 ∧
    userFrame userId db
      (updateEvent db userId eventId eventData t0 t1 refreshO getResult
        updResult).1 ∧
    userFrame userId db
      (deleteEvent db userId eventId t0 t1 refreshO getResult delResult).1 := by
  refine ⟨?_, ?_, ?_⟩
  · rw [createEvent_fst]
    exact setupOAuthClient_userFrame db userId t0 t1 refreshO
  · rw [updateEvent_fst]
    exact setupOAuthClient_userFrame db userId t0 t1 refreshO
  · rw [deleteEvent_fst]
    exact setupOAuthClient_userFrame db userId t0 t1 refreshO

/-- C5 counterexample: a sync that completes successfully through the
410 recovery path, whose final upstream page carries no
`nextSyncToken`, leaves the stored `syncToken` cleared to null — not
unchanged (it was `some "oldSync"` before the call). -/
theorem sync_syncToken_unchanged_counterexample :
    ({ items := [] } : EventsPage).nextSyncToken = none ∧
    exFetch410Bare none = .ok [{ items := [] }] ∧
    storedSyncToken exDb "u1" = some (some "oldSync") ∧
    syncCalendarEvents 2 exDb "u1" 1000 1000 exNoRefresh exFetch410Bare =
      some ({ users := [{ exUser with syncToken := none }], webhooks := [] },
        .ok ([], false)) ∧
    storedSyncToken
      { users := [{ exUser with syncToken := none }], webhooks := [] } "u1" =
      some none :=
  ⟨rfl, rfl, rfl, rfl, rfl⟩

/-- C5 (amended): on the direct success path (the listing with the
stored token succeeds — no 410 reset), the stored `syncToken` is the
incremental-sync cursor: after the call it equals the final page's
`nextSyncToken` when one is present, and is unchanged otherwise. -/
theorem sync_syncToken_cursor (fuel : Nat) (db : DB) (userId : String)
    (t0 t1 : Int) (refreshO : String → Except JsError Credentials)
    (fetch : Option String → Except JsError (List EventsPage))
    (db1 : DB) (user : UserRec) (pages : List EventsPage)
    (plast : EventsPage)
    (hsetup : setupOAuthClient db userId t0 t1 refreshO = (db1, .ok ()))
    (hfind : findUser db1 userId = some user)
    (hfetch : fetch user.syncToken = .ok pages)
    (hwf : wellFormedPages pages = true)
    (hlast : pages.getLast? = some plast) :
    ∃ db2 r, syncCalendarEvents (fuel + 1) db userId t0 t1 refreshO fetch =
        some (db2, .ok r) ∧
      (∀ t, plast.nextSyncToken = some t →
        storedSyncToken db2 userId = some (some t)) ∧
      (plast.nextSyncToken = none →
        storedSyncToken db2 userId = storedSyncToken db userId) := by
  refine ⟨finalSyncDb db1 userId pages, _,
    syncCalendarEvents_direct fuel db userId t0 t1 refreshO fetch db1 user
      pages hsetup hfind hfetch hwf, ?_, ?_⟩
  · intro t ht
    rw [finalSyncDb_getLast db1 userId pages plast hlast, ht]
    exact storedSyncToken_set db1 userId user (some t) hfind
  · intro ht
    rw [finalSyncDb_getLast db1 userId pages plast hlast, ht]
    have hsync := setupOAuthClient_syncToken db userId userId t0 t1 refreshO
    rw [hsetup] at hsync
    exact hsync

/-- Witness for the amended C5 on a concrete two-page response whose
final page carries a `nextSyncToken`. -/
theorem sync_syncToken_cursor_witness :
    (setupOAuthClient exDb "u1" 1000 1000 exNoRefresh = (exDb, .ok ()) ∧
     findUser exDb "u1" = some exUser ∧
     exFetchTwoPages exUser.syncToken = .ok [exPage1, exPage2] ∧
     wellFormedPages [exPage1, exPage2] = true ∧
     [exPage1, exPage2].getLast? = some exPage2) ∧
    (∃ db2 r, syncCalendarEvents 1 exDb "u1" 1000 1000 exNoRefresh
        exFetchTwoPages = some (db2, .ok r) ∧
      (∀ t, exPage2.nextSyncToken = some t →
        storedSyncToken db2 "u1" = some (some t)) ∧
      (exPage2.nextSyncToken = none →
        storedSyncToken db2 "u1" = storedSyncToken exDb "u1")) :=
  ⟨⟨rfl, rfl, rfl, rfl, rfl⟩,
   sync_syncToken_cursor 0 exDb "u1" 1000 1000 exNoRefresh exFetchTwoPages
     exDb exUser [exPage1, exPage2] exPage2 rfl rfl rfl rfl rfl⟩

/-- C6 counterexample: the program also invokes the Calendar API
operations `events.get` (in `updateEvent` and `deleteEvent`) and
`channels.stop` (in `stopWebhook`), neither of which is in the spec's
list of proxied operations. -/
theorem upstream_ops_counterexample :
    UpstreamOp.eventsGet ∈ invokedCalendarOps ∧
    UpstreamOp.eventsGet ∉ specClaimedCalendarOps ∧
    UpstreamOp.channelsStop ∈ invokedCalendarOps ∧
    UpstreamOp.channelsStop ∉ specClaimedCalendarOps := by decide

/-- C6 (amended): the set of Google Calendar API v3 operations the
program may invoke is exactly events.list, events.insert,
events.update, events.delete, events.watch, events.get and
channels.stop (plus the OAuth2 endpoints, which are not Calendar
operations). -/
theorem upstream_ops_exact :
    invokedCalendarOps.toFinset =
      (UpstreamOp.eventsGet :: UpstreamOp.channelsStop ::
        specClaimedCalendarOps).toFinset := by decide

/-- C7 counterexample: both tables carry `createdAt` columns (and the
`User` table an `updatedAt` column) that the spec's field list omits. -/
theorem schema_fields_counterexample :
    "createdAt" ∈ userTableColumns ∧ "createdAt" ∉ specUserFields ∧
    "updatedAt" ∈ userTableColumns ∧ "updatedAt" ∉ specUserFields ∧
    "createdAt" ∈ webhookTableColumns ∧ "createdAt" ∉ specWebhookFields := by
  decide

/-- C7 (amended): the tables hold exactly the spec's fields plus the
ORM-managed timestamps: `User` additionally has `createdAt` and
`updatedAt`, and `Webhook` additionally has `createdAt`. -/
theorem schema_fields_exact :
    userTableColumns = specUserFields ++ ["createdAt", "updatedAt"] ∧
    webhookTableColumns = specWebhookFields ++ ["createdAt"] := ⟨rfl, rfl⟩

/-- C8: when `setupWebhook` completes successfully, exactly one
`Webhook` row exists for the user: all previously found rows are
removed (force-deleted even when stopping the channel upstream fails)
and one new row with the freshly generated channel id is created. -/
theorem setupWebhook_single_row (db : DB) (userId : String) (t0 t1 : Int)
    (refreshO : String → Except JsError Credentials)
    (stopO : String → String → Except JsError Unit)
    (nowMs : Int) (newRowId : String) (watchResult : Except JsError String)
    (db' : DB)
    (hok : setupWebhook db userId t0 t1 refreshO stopO nowMs newRowId
      watchResult = (db', .ok ())) :
    ∃ w : WebhookRec,
      db'.webhooks.filter (fun x => x.userId == userId) = [w] ∧
      w.channelId = userId ++ "-" ++ toString nowMs := by
  obtain ⟨resourceId, db2, hwatch, hdb2, hdb'⟩ :=
    setupWebhook_ok_struct db userId t0 t1 refreshO stopO nowMs newRowId
      watchResult db' hok
  have hclean : ∀ w ∈ (cleanupWebhooks db stopO
      (db.webhooks.filter (fun x => x.userId == userId))).webhooks,
      w.userId ≠ userId :=
    cleanupWebhooks_clears stopO userId _ db
      (fun w hw he => List.mem_filter.mpr ⟨hw, by simp [he]⟩)
  have hwb : db2.webhooks = (cleanupWebhooks db stopO
      (db.webhooks.filter (fun x => x.userId == userId))).webhooks := by
    rw [← hdb2]
    exact setupOAuthClient_webhooks _ _ _ _ _
  refine ⟨{ id := newRowId, userId := userId,
            channelId := userId ++ "-" ++ toString nowMs,
            resourceId := resourceId,
            expiration := nowMs + 7 * 24 * 60 * 60 * 1000 }, ?_, rfl⟩
  rw [hdb']
  dsimp only
  rw [List.filter_append]
  have hnil : db2.webhooks.filter (fun x => x.userId == userId) = [] := by
    rw [List.filter_eq_nil_iff]
    intro a ha
    simp [hclean a (hwb ▸ ha)]
  rw [hnil]
  simp

/-- Witness for C8: a store with one stale webhook whose upstream stop
fails; the stale row is force-deleted and exactly the fresh row
remains. -/
theorem setupWebhook_single_row_witness :
    (setupWebhook exDbW "u1" 1000 1000 exNoRefresh exStopFail 2000 "w1"
      (.ok "res1") = (exDbWAfter, .ok ())) ∧
    (∃ w : WebhookRec,
      exDbWAfter.webhooks.filter (fun x => x.userId == "u1") = [w] ∧
      w.channelId = "u1" ++ "-" ++ toString (2000 : Int)) :=
  ⟨rfl,
   setupWebhook_single_row exDbW "u1" 1000 1000 exNoRefresh exStopFail 2000
     "w1" (.ok "res1") exDbWAfter rfl⟩

/-- C9: when `setupOAuthClient` returns successfully for a stored user,
the stored `tokenExpiry` is strictly later than the time observed at
the start of the call: an expired token is refreshed with expiry one
hour after the refresh-time clock reading, an unexpired one is left
unchanged. -/
theorem setupOAuthClient_token_validity (db : DB) (userId : String)
    (t0 t1 : Int) (refreshO : String → Except JsError Credentials)
    (user : UserRec) (db' : DB)
    (ht : t0 ≤ t1)
    (hfind : findUser db userId = some user)
    (hok : setupOAuthClient db userId t0 t1 refreshO = (db', .ok ())) :
    ∃ user', findUser db' userId = some user' ∧ t0 < user'.tokenExpiry ∧
      (user.tokenExpiry ≤ t0 → user'.tokenExpiry = t1 + 3600000) ∧
      (t0 < user.tokenExpiry → user' = user) := by
  unfold setupOAuthClient at hok
  rw [hfind] at hok
  dsimp only at hok
  by_cases hexp : user.tokenExpiry ≤ t0
  · rw [if_pos hexp] at hok
    cases hr : refreshO user.refreshToken with
    | error e => rw [hr] at hok; simp at hok
    | ok newTokens =>
      rw [hr] at hok
      simp only [Prod.mk.injEq] at hok
      obtain ⟨hdb, -⟩ := hok
      subst hdb
      rw [findUser_updateUserRow db userId userId
          (fun u =>
            { u with accessToken := newTokens.access_token.getD "",
                     tokenExpiry := t1 + 3600000 })
          (fun x => rfl), hfind]
      refine ⟨_, rfl, ?_, fun _ => ?_,
        fun hlt => absurd hexp (not_le.mpr hlt)⟩
      · simp only [Option.map_some', findUser_id db userId user hfind,
          beq_self_eq_true, if_true]
        omega
      · simp [findUser_id db userId user hfind]
  · rw [if_neg hexp] at hok
    simp only [Prod.mk.injEq] at hok
    obtain ⟨hdb, -⟩ := hok
    subst hdb
    exact ⟨user, hfind, not_le.mp hexp, fun hle => absurd hle hexp,
      fun _ => rfl⟩

/-- Witness for C9: an expired user is refreshed and the expiry lands
one hour past the clock reading. -/
theorem setupOAuthClient_token_validity_witness :
    ((1000 : Int) ≤ 1000 ∧
     findUser exDbExpired "u2" = some exUserExpired ∧
     setupOAuthClient exDbExpired "u2" 1000 1000 exRefreshOk =
       (exDbRefreshed, .ok ())) ∧
    (∃ user', findUser exDbRefreshed "u2" = some user' ∧
      (1000 : Int) < user'.tokenExpiry ∧
      (exUserExpired.tokenExpiry ≤ 1000 →
        user'.tokenExpiry = 1000 + 3600000) ∧
      (1000 < exUserExpired.tokenExpiry → user' = exUserExpired)) :=
  ⟨⟨le_refl 1000, rfl, rfl⟩,
   setupOAuthClient_token_validity exDbExpired "u2" 1000 1000 exRefreshOk
     exUserExpired exDbRefreshed (le_refl 1000) rfl rfl⟩

/-- C10: a successful `syncCalendarEvents` result satisfies
`hasChanges = true` exactly when the returned event list is nonempty. -/
theorem sync_hasChanges_iff_nonempty (fuel : Nat) (db : DB)
    (userId : String) (t0 t1 : Int)
    (refreshO : String → Except JsError Credentials)
    (fetch : Option String → Except JsError (List EventsPage))
    (db' : DB) (es : List CalendarEvent) (hc : Bool)
    (hok : syncCalendarEvents fuel db userId t0 t1 refreshO fetch =
      some (db', .ok (es, hc))) :
    hc = true ↔ es ≠ [] :=
  syncCalendarEvents_hasChanges fuel db userId t0 t1 refreshO fetch db' es hc
    hok

/-- Witness for C10 on a concrete two-page sync returning two events. -/
theorem sync_hasChanges_iff_nonempty_witness :
    (syncCalendarEvents 1 exDb "u1" 1000 1000 exNoRefresh exFetchTwoPages =
      some ({ users := [{ exUser with syncToken := some "newSync" }],
              webhooks := [] },
        .ok ([mapGEvent exGEvent1, mapGEvent exGEvent2], true))) ∧
    (true = true ↔ [mapGEvent exGEvent1, mapGEvent exGEvent2] ≠ []) :=
  ⟨rfl,
   sync_hasChanges_iff_nonempty 1 exDb "u1" 1000 1000 exNoRefresh
     exFetchTwoPages _ _ _ rfl⟩

/-- Witness for C4 at a concrete store and concrete oracle outcomes. -/
theorem eventOps_no_local_event_storage_witness :
    userFrame "u1" exDb
      (createEvent exDb "u1" {} 1000 1000 exNoRefresh (.ok exGEvent1)).1 ∧
    userFrame "u1" exDb
      (updateEvent exDb "u1" "e1" {} 1000 1000 exNoRefresh (.ok exGEvent1)
        (.ok exGEvent1)).1 ∧
    userFrame "u1" exDb
      (deleteEvent exDb "u1" "e1" 1000 1000 exNoRefresh (.ok exGEvent1)
        (.ok ())).1 :=
  eventOps_no_local_event_storage exDb "u1" "e1" {} 1000 1000 exNoRefresh
    (.ok exGEvent1) (.ok exGEvent1) (.ok exGEvent1) (.ok ())
